import Mathlib

/-!
Shallow embedding of the mock client/database access layer of
src/agent_examples/bank_support.py: the MockClient record, the
MockDatabase store with its open/close lifecycle flag, the
SupportAgentDependencies context, and the two agent callback
operations add_customer_name (the spec calls it fetch_name) and
customer_balance (the spec calls it fetch_balance).

Python mutation is embedded as explicit state passing: each stateful
operation takes a MockDatabase and returns the post-state paired with
an Except result. The two Python exceptions ("Database is not open"
and "Client not found: ...") are embedded as the two DBError
constructors the spec names StoreClosed and RecordNotFound. Monetary
amounts (Python float) are embedded as rationals.
-/

/-- Decidable equality for Except, so that concrete runs of the
embedded operations can be checked by evaluation. -/
instance {ε α : Type} [DecidableEq ε] [DecidableEq α] : DecidableEq (Except ε α)
  | Except.ok a, Except.ok b =>
      if h : a = b then isTrue (by rw [h]) else isFalse (fun hh => h (Except.ok.inj hh))
  | Except.ok _, Except.error _ => isFalse (fun hh => Except.noConfusion hh)
  | Except.error _, Except.ok _ => isFalse (fun hh => Except.noConfusion hh)
  | Except.error d, Except.error e =>
      if h : d = e then isTrue (by rw [h]) else isFalse (fun hh => h (Except.error.inj hh))

/-- Embeds class MockClient (bank_support.py lines 15-33): a client
record with a name, a settled balance and a pending delta. -/
structure MockClient where
  name : String
  balance : ℚ
  pending : ℚ
deriving DecidableEq

/-- Embeds MockClient.get_balance (lines 27-30): the settled balance,
plus the pending delta when include_pending is true. -/
def MockClient.get_balance (c : MockClient) (include_pending : Bool) : ℚ :=
  if include_pending then c.balance + c.pending else c.balance

/-- Embeds MockClient.get_name (lines 32-33). -/
def MockClient.get_name (c : MockClient) : String :=
  c.name

/-- The two error kinds of the store: the spec names the Python
exceptions StoreClosed and RecordNotFound; RecordNotFound carries the
missing id, as the Python message does. -/
inductive DBError where
  | StoreClosed
  | RecordNotFound (client_id : Int)
deriving DecidableEq

/-- Embeds class MockDatabase (lines 35-57): a lifecycle flag and a
mapping from integer client ids to client records. -/
structure MockDatabase where
  open_state : Bool
  database : Int → Option MockClient

/-- The initial store state from the class attribute defaults
(lines 39-40): flag false, empty mapping. -/
def MockDatabase.initial : MockDatabase :=
  { open_state := false, database := fun _ => none }

/-- Embeds MockDatabase.open (lines 42-43). Named openDb because open
is a Lean keyword. -/
def MockDatabase.openDb (db : MockDatabase) : MockDatabase :=
  { db with open_state := true }

/-- Embeds MockDatabase.close (lines 44-45). -/
def MockDatabase.close (db : MockDatabase) : MockDatabase :=
  { db with open_state := false }

/-- Embeds MockDatabase.add_client (lines 47-50): raises StoreClosed
when the flag is false, otherwise inserts/overwrites the entry. -/
def MockDatabase.add_client (db : MockDatabase) (client_id : Int) (client : MockClient) :
    MockDatabase × Except DBError Unit :=
  if !db.open_state then (db, Except.error DBError.StoreClosed)
  else ({ db with database := fun i => if i = client_id then some client else db.database i },
        Except.ok ())

/-- Embeds MockDatabase.get_client (lines 52-57): raises StoreClosed
when the flag is false, RecordNotFound when the id is absent,
otherwise returns the record. -/
def MockDatabase.get_client (db : MockDatabase) (client_id : Int) :
    MockDatabase × Except DBError MockClient :=
  if !db.open_state then (db, Except.error DBError.StoreClosed)
  else match db.database client_id with
    | none => (db, Except.error (DBError.RecordNotFound client_id))
    | some c => (db, Except.ok c)

/-- Embeds the dataclass SupportAgentDependencies (lines 59-73): a
client id bound to a store. -/
structure SupportAgentDependencies where
  client_id : Int
  database : MockDatabase

/-- Embeds the system-prompt callback add_customer_name
(lines 113-119), the spec operation fetch_name: open the bound store,
look up the record for the bound client id, read its name, close the
store, return the formatted string. When get_client raises, the
exception propagates before the close step runs, so the post-state is
the opened store. The Python !r formatting of the name is embedded as
wrapping in single quotes (\x27). -/
def add_customer_name (ctx : SupportAgentDependencies) :
    MockDatabase × Except DBError String :=
  let db1 := ctx.database.openDb
  match db1.get_client ctx.client_id with
  | (db2, Except.error e) => (db2, Except.error e)
  | (db2, Except.ok client) =>
      let customer_name := client.get_name
      let db3 := db2.close
      (db3, Except.ok ("The customer\x27s name is \x27" ++ customer_name ++ "\x27"))

/-- Embeds the tool callback customer_balance (lines 123-129), the
spec operation fetch_balance: open the bound store, look up the record
for the bound client id, compute its balance, close the store, return
the balance. When get_client raises, the exception propagates before
the close step runs, so the post-state is the opened store. -/
def customer_balance (ctx : SupportAgentDependencies) (include_pending : Bool) :
    MockDatabase × Except DBError ℚ :=
  let db1 := ctx.database.openDb
  match db1.get_client ctx.client_id with
  | (db2, Except.error e) => (db2, Except.error e)
  | (db2, Except.ok client) => (db2.close, Except.ok (client.get_balance include_pending))

/-- The client record of the spec scenario and of bank_support.py
line 93: name John Doe, settled balance 1000, pending 12.4. -/
def client_john : MockClient :=
  { name := "John Doe", balance := 1000, pending := 12.4 }

/-- The store state of the spec scenario: starting from the initial
state, open, add client_john under id 1, close. -/
def scenarioDb : MockDatabase :=
  ((MockDatabase.initial.openDb).add_client 1 client_john).1.close

/-- The second client record of bank_support.py line 95: name Melissa
Rayes, settled balance 69, pending 100. -/
def client_mel : MockClient :=
  { name := "Melissa Rayes", balance := 69, pending := 100 }

/-- An open store holding client_john under id 1; used as a concrete
input for witnesses. -/
def johnOpenDb : MockDatabase :=
  { open_state := true, database := fun i => if i = 1 then some client_john else none }

/-- Each branch of get_client returns the store unchanged as the
post-state. -/
theorem MockDatabase.get_client_fst (db : MockDatabase) (client_id : Int) :
    (db.get_client client_id).1 = db := by
  rcases db with ⟨b, m⟩
  cases b
  · rfl
  · unfold MockDatabase.get_client
    rcases h : m client_id with _ | c <;> simp [h]

/-- C1 counterexample: in the spec scenario (client_john added under
id 1, store then closed) a call to customer_balance for id 1 does NOT
fail with StoreClosed; it succeeds and, with include_pending true,
returns 1012.4, because customer_balance opens the store itself. -/
theorem C1_counterexample :
    scenarioDb.open_state = false ∧
    (customer_balance ⟨1, scenarioDb⟩ true).2 ≠ Except.error DBError.StoreClosed ∧
    (customer_balance ⟨1, scenarioDb⟩ true).2 = Except.ok (1012.4 : ℚ) := by
  refine ⟨rfl, ?_, ?_⟩ <;>
    simp [customer_balance, scenarioDb, MockDatabase.initial, MockDatabase.openDb,
      MockDatabase.close, MockDatabase.add_client, MockDatabase.get_client,
      MockClient.get_balance, client_john]
  norm_num

/-- C1 (amended): in the scenario where client id 1 with name John
Doe, settled balance 1000 and pending 12.4 is added to the store and
the store is then closed, a call to customer_balance for client id 1
does not fail: it reopens the store itself and, with include_pending
true, returns 1012.4; after the store is explicitly reopened the same
call again returns 1012.4. -/
theorem C1_scenario_balance :
    (customer_balance ⟨1, scenarioDb⟩ true).2 = Except.ok (1012.4 : ℚ) ∧
    (customer_balance ⟨1, scenarioDb.openDb⟩ true).2 = Except.ok (1012.4 : ℚ) := by
  constructor <;>
    · simp [customer_balance, scenarioDb, MockDatabase.initial, MockDatabase.openDb,
        MockDatabase.close, MockDatabase.add_client, MockDatabase.get_client,
        MockClient.get_balance, client_john]
      norm_num

/-- C2: for every context whose client id is present in the store,
customer_balance with include_pending false returns exactly that
client record's settled balance, and with include_pending true returns
the settled balance plus the pending delta. -/
theorem C2_balance_settled_and_pending (db : MockDatabase) (id : Int) (c : MockClient)
    (h : db.database id = some c) :
    (customer_balance ⟨id, db⟩ false).2 = Except.ok c.balance ∧
    (customer_balance ⟨id, db⟩ true).2 = Except.ok (c.balance + c.pending) := by
  constructor <;>
    simp [customer_balance, MockDatabase.openDb, MockDatabase.get_client,
      MockClient.get_balance, h]

/-- C2 witness: on the scenario store holding client_john (settled
1000, pending 12.4) under id 1, customer_balance returns 1000 without
pending and 1012.4 with pending. -/
theorem C2_balance_settled_and_pending_witness :
    (customer_balance ⟨1, scenarioDb⟩ false).2 = Except.ok (1000 : ℚ) ∧
    (customer_balance ⟨1, scenarioDb⟩ true).2 = Except.ok (1012.4 : ℚ) := by
  have h := C2_balance_settled_and_pending scenarioDb 1 client_john rfl
  refine ⟨h.1.trans ?_, h.2.trans ?_⟩
  · rfl
  · have : client_john.balance + client_john.pending = (1012.4 : ℚ) := by
      norm_num [client_john]
    rw [this]

/-- C3: for every client id and record added while the store flag is
open, even when the id is already present (silent overwrite, no
error), get_client performed immediately after returns exactly the
record that was added. -/
theorem C3_add_get_roundtrip (db : MockDatabase) (id : Int) (record : MockClient)
    (h : db.open_state = true) :
    (db.add_client id record).2 = Except.ok () ∧
    ((db.add_client id record).1.get_client id).2 = Except.ok record := by
  constructor <;> simp [MockDatabase.add_client, MockDatabase.get_client, h]

/-- C3 witness: on an open store already holding client_john under
id 1, adding client_mel under id 1 succeeds without error and
get_client 1 immediately after returns client_mel. -/
theorem C3_add_get_roundtrip_witness :
    (johnOpenDb.add_client 1 client_mel).2 = Except.ok () ∧
    ((johnOpenDb.add_client 1 client_mel).1.get_client 1).2 = Except.ok client_mel :=
  C3_add_get_roundtrip johnOpenDb 1 client_mel rfl

/-- C4: on every store whose flag is false, get_client and add_client
both fail with StoreClosed for every id, regardless of the mapping
contents, and both leave the store (in particular the mapping)
unchanged. -/
theorem C4_closed_store_rejects (db : MockDatabase) (id : Int) (record : MockClient)
    (h : db.open_state = false) :
    (db.get_client id).2 = Except.error DBError.StoreClosed ∧
    (db.add_client id record).2 = Except.error DBError.StoreClosed ∧
    (db.add_client id record).1 = db ∧
    (db.get_client id).1 = db := by
  refine ⟨?_, ?_, ?_, ?_⟩ <;> simp [MockDatabase.get_client, MockDatabase.add_client, h]

/-- C4 witness: the closed scenario store (which does hold a record
under id 1) rejects get_client 1 and add_client 1 with StoreClosed and
is left unchanged. -/
theorem C4_closed_store_rejects_witness :
    (scenarioDb.get_client 1).2 = Except.error DBError.StoreClosed ∧
    (scenarioDb.add_client 1 client_mel).2 = Except.error DBError.StoreClosed ∧
    (scenarioDb.add_client 1 client_mel).1 = scenarioDb ∧
    (scenarioDb.get_client 1).1 = scenarioDb :=
  C4_closed_store_rejects scenarioDb 1 client_mel rfl

/-- C5: for every store and id absent from the mapping, get_client on
the open store fails with RecordNotFound, and both add_customer_name
and customer_balance propagate RecordNotFound to the caller when the
bound client id is absent. -/
theorem C5_absent_id_not_found (db : MockDatabase) (id : Int)
    (habs : db.database id = none) :
    (db.open_state = true → (db.get_client id).2 = Except.error (DBError.RecordNotFound id)) ∧
    (add_customer_name ⟨id, db⟩).2 = Except.error (DBError.RecordNotFound id) ∧
    ∀ include_pending,
      (customer_balance ⟨id, db⟩ include_pending).2 =
        Except.error (DBError.RecordNotFound id) := by
  refine ⟨fun h => ?_, ?_, fun ip => ?_⟩ <;>
    simp [MockDatabase.get_client, add_customer_name, customer_balance,
      MockDatabase.openDb, habs, *]

/-- C5 witness: on the open store holding only id 1, id 3 is absent:
get_client 3 fails with RecordNotFound 3 and both query operations
propagate the error. -/
theorem C5_absent_id_not_found_witness :
    (johnOpenDb.open_state = true →
      (johnOpenDb.get_client 3).2 = Except.error (DBError.RecordNotFound 3)) ∧
    (add_customer_name ⟨3, johnOpenDb⟩).2 = Except.error (DBError.RecordNotFound 3) ∧
    ∀ include_pending,
      (customer_balance ⟨3, johnOpenDb⟩ include_pending).2 =
        Except.error (DBError.RecordNotFound 3) :=
  C5_absent_id_not_found johnOpenDb 3 rfl

/-- C6: each query operation closes the store last on success: for
every context, whenever add_customer_name or customer_balance returns
a value, the store flag is false in the post-state. -/
theorem C6_success_closes_store (ctx : SupportAgentDependencies) :
    (∀ s, (add_customer_name ctx).2 = Except.ok s →
      (add_customer_name ctx).1.open_state = false) ∧
    ∀ include_pending b, (customer_balance ctx include_pending).2 = Except.ok b →
      (customer_balance ctx include_pending).1.open_state = false := by
  constructor
  · intro s hs
    rcases hgc : (ctx.database.openDb).get_client ctx.client_id with ⟨db2, r⟩
    cases r with
    | error e => simp [add_customer_name, hgc] at hs
    | ok c => simp [add_customer_name, hgc, MockDatabase.close]
  · intro ip b hb
    rcases hgc : (ctx.database.openDb).get_client ctx.client_id with ⟨db2, r⟩
    cases r with
    | error e => simp [customer_balance, hgc] at hb
    | ok c => simp [customer_balance, hgc, MockDatabase.close]

/-- C6 witness: on the scenario store (which holds id 1) both query
operations succeed for id 1 and leave the flag false. -/
theorem C6_success_closes_store_witness :
    (add_customer_name ⟨1, scenarioDb⟩).1.open_state = false ∧
    (customer_balance ⟨1, scenarioDb⟩ true).1.open_state = false :=
  ⟨(C6_success_closes_store ⟨1, scenarioDb⟩).1 _ rfl,
   (C6_success_closes_store ⟨1, scenarioDb⟩).2 true _ rfl⟩

/-- C7: openDb and close always succeed (they are total functions),
are idempotent, set the flag to true resp. false, and leave the
mapping untouched. -/
theorem C7_open_close_idempotent (db : MockDatabase) :
    db.openDb.open_state = true ∧ db.openDb.openDb = db.openDb ∧
    db.close.open_state = false ∧ db.close.close = db.close ∧
    db.openDb.database = db.database ∧ db.close.database = db.database :=
  ⟨rfl, rfl, rfl, rfl, rfl, rfl⟩

/-- C8: the lifecycle flag is a Bool (exactly two states), the initial
state from the class defaults is closed, and the data operations
add_client and get_client never change the flag; get_client also
leaves the mapping (indeed the whole store) unchanged. -/
theorem C8_data_ops_check_not_change (db : MockDatabase) (id : Int) (record : MockClient) :
    MockDatabase.initial.open_state = false ∧
    (db.add_client id record).1.open_state = db.open_state ∧
    (db.get_client id).1.open_state = db.open_state ∧
    (db.get_client id).1.database = db.database := by
  refine ⟨rfl, ?_, by rw [MockDatabase.get_client_fst], by rw [MockDatabase.get_client_fst]⟩
  rcases db with ⟨b, m⟩
  cases b <;> rfl

/-- C9: when the bound client id is absent, the lookup inside each
query operation fails with RecordNotFound, the close step is skipped,
and the post-state flag remains true: a failed query leaves the store
open. -/
theorem C9_failed_query_leaves_store_open (ctx : SupportAgentDependencies)
    (habs : ctx.database.database ctx.client_id = none) :
    (add_customer_name ctx).2 = Except.error (DBError.RecordNotFound ctx.client_id) ∧
    (add_customer_name ctx).1.open_state = true ∧
    ∀ include_pending,
      (customer_balance ctx include_pending).2 =
        Except.error (DBError.RecordNotFound ctx.client_id) ∧
      (customer_balance ctx include_pending).1.open_state = true := by
  have hgc : ({ open_state := true, database := ctx.database.database } :
        MockDatabase).get_client ctx.client_id =
      (({ open_state := true, database := ctx.database.database } : MockDatabase),
        Except.error (DBError.RecordNotFound ctx.client_id)) := by
    simp [MockDatabase.get_client, habs]
  refine ⟨?_, ?_, fun ip => ⟨?_, ?_⟩⟩ <;>
    simp [add_customer_name, customer_balance, MockDatabase.openDb, hgc]

/-- C9 witness: id 3 is absent from the scenario store, so both query
operations fail with RecordNotFound 3 and leave the store open. -/
theorem C9_failed_query_leaves_store_open_witness :
    (add_customer_name ⟨3, scenarioDb⟩).2 = Except.error (DBError.RecordNotFound 3) ∧
    (add_customer_name ⟨3, scenarioDb⟩).1.open_state = true ∧
    ∀ include_pending,
      (customer_balance ⟨3, scenarioDb⟩ include_pending).2 =
        Except.error (DBError.RecordNotFound 3) ∧
      (customer_balance ⟨3, scenarioDb⟩ include_pending).1.open_state = true :=
  C9_failed_query_leaves_store_open ⟨3, scenarioDb⟩ rfl

/-- C10: for every prior store state, neither query operation can fail
with StoreClosed (each opens the store first); the only error either
can return is RecordNotFound for the bound client id. -/
theorem C10_fetch_never_store_closed (ctx : SupportAgentDependencies) :
    ((add_customer_name ctx).2 ≠ Except.error DBError.StoreClosed ∧
      ∀ e, (add_customer_name ctx).2 = Except.error e →
        e = DBError.RecordNotFound ctx.client_id) ∧
    ∀ include_pending,
      (customer_balance ctx include_pending).2 ≠ Except.error DBError.StoreClosed ∧
      ∀ e, (customer_balance ctx include_pending).2 = Except.error e →
        e = DBError.RecordNotFound ctx.client_id := by
  rcases h : ctx.database.database ctx.client_id with _ | c
  · have hgc : ({ open_state := true, database := ctx.database.database } :
          MockDatabase).get_client ctx.client_id =
        (({ open_state := true, database := ctx.database.database } : MockDatabase),
          Except.error (DBError.RecordNotFound ctx.client_id)) := by
      simp [MockDatabase.get_client, h]
    refine ⟨⟨?_, fun e he => ?_⟩, fun ip => ⟨?_, fun e he => ?_⟩⟩
    · simp [add_customer_name, MockDatabase.openDb, hgc]
    · simp [add_customer_name, MockDatabase.openDb, hgc] at he
      simp [he]
    · simp [customer_balance, MockDatabase.openDb, hgc]
    · simp [customer_balance, MockDatabase.openDb, hgc] at he
      simp [he]
  · have hgc : ({ open_state := true, database := ctx.database.database } :
          MockDatabase).get_client ctx.client_id =
        (({ open_state := true, database := ctx.database.database } : MockDatabase),
          Except.ok c) := by
      simp [MockDatabase.get_client, h]
    refine ⟨⟨?_, fun e he => ?_⟩, fun ip => ⟨?_, fun e he => ?_⟩⟩
    · simp [add_customer_name, MockDatabase.openDb, hgc]
    · simp [add_customer_name, MockDatabase.openDb, hgc] at he
    · simp [customer_balance, MockDatabase.openDb, hgc]
    · simp [customer_balance, MockDatabase.openDb, hgc] at he

/-- C10 witness: on the closed scenario store with absent id 3,
neither operation fails with StoreClosed, and the error that does
occur is RecordNotFound 3. -/
theorem C10_fetch_never_store_closed_witness :
    (add_customer_name ⟨3, scenarioDb⟩).2 ≠ Except.error DBError.StoreClosed ∧
    DBError.RecordNotFound 3 = DBError.RecordNotFound 3 ∧
    (customer_balance ⟨3, scenarioDb⟩ true).2 ≠ Except.error DBError.StoreClosed :=
  ⟨(C10_fetch_never_store_closed ⟨3, scenarioDb⟩).1.1,
   (C10_fetch_never_store_closed ⟨3, scenarioDb⟩).1.2 (DBError.RecordNotFound 3) rfl,
   ((C10_fetch_never_store_closed ⟨3, scenarioDb⟩).2 true).1⟩
